import Mathlib

/-!
Verification of the delta-detection and notification pipeline of the
game-news webhook scrapers.

Timestamps are modelled as natural numbers: the value of Date.getTime()
in milliseconds since the epoch.  Every comparison of Date objects in the
source is a numeric comparison of these values.  The JS array sort used on
the unposted set is stable (ECMAScript 2019 onwards, Node 20), and a stable
sort under a consistent comparator has a unique output, so it is modelled
by List.insertionSort, which Mathlib proves stable.
-/

namespace GameNewsBot

/-- An article scraped from a news page: title, absolute url and publication
timestamp in epoch milliseconds. -/
structure Article where
  title : String
  url : String
  published : Nat
deriving Repr, DecidableEq

/-- The persisted delta state of the arc-raiders scraper: the timestamp of
the newest article recorded as handled, and the urls recorded at exactly
that timestamp. -/
structure DeltaState where
  lastPublished : Nat
  postedUrls : List String
deriving Repr, DecidableEq

/-- The JSON record of the state file as the loader sees it after parsing.
lastPublishedField is none when the last_published field is absent or falsy;
postedUrlsIsArray is false when posted_urls is absent or not an array, in
which case postedUrlsField is irrelevant. -/
structure RawRecord where
  lastPublishedField : Option String
  postedUrlsIsArray : Bool
  postedUrlsField : List String
deriving Repr, DecidableEq

/-- Contents of the state file as observed by loadState: the file may be
missing, hold text that JSON.parse rejects, or hold a parsed record. -/
inductive StateFile where
  | missing
  | malformed
  | parsed (record : RawRecord)
deriving Repr, DecidableEq

/-- loadState of the arc-raiders scraper.  A missing file yields null, a
JSON parse error is caught and yields null, an absent or unparseable
last_published yields null, and posted_urls is kept only when it is an
array, otherwise the empty list is used.  dateParse models new Date(s),
returning none when the result is an invalid date. -/
def loadState (dateParse : String → Option Nat) : StateFile → Option DeltaState
  | .missing => none
  | .malformed => none
  | .parsed record =>
    match record.lastPublishedField with
    | none => none
    | some s =>
      match dateParse s with
      | none => none
      | some t =>
        some ⟨t, if record.postedUrlsIsArray then record.postedUrlsField else []⟩

/-- An HTTP response: its status code and the parsed numeric value of its
Retry-After header (none when the header is absent or not numeric). -/
structure HttpResponse where
  status : Nat
  retryAfterValue : Option Nat
deriving Repr, DecidableEq

/-- res.ok of the fetch API: a status code in the range 200 to 299. -/
def isOk (status : Nat) : Bool :=
  decide (200 ≤ status) && decide (status ≤ 299)

/-- One fetch attempt either raises a network error or yields a response. -/
inductive AttemptResult where
  | netError
  | response (r : HttpResponse)
deriving Repr, DecidableEq

/-- An attempt counts as failed when it raised or returned a non-2xx
status; fetchWithRetry retries exactly these. -/
def attemptFails : AttemptResult → Bool
  | .netError => true
  | .response r => !(isOk r.status)

/-- fetchWithRetry of the arc-raiders scraper: try the request up to the
given number of remaining attempts, returning the first ok response, and
null once every attempt has been used up; a thrown network error and a
non-2xx status are both retried.  The first argument gives the result of
each attempt, the second is the 1-based index of the current attempt and
the third the number of attempts still allowed. -/
def fetchWithRetry (resp : Nat → AttemptResult) (attempt : Nat) : Nat → Option HttpResponse
  | 0 => none
  | fuel + 1 =>
    match resp attempt with
    | .response r =>
      if isOk r.status then some r else fetchWithRetry resp (attempt + 1) fuel
    | .netError => fetchWithRetry resp (attempt + 1) fuel

/-- Outcome of the scrape feeding the delta logic: either the fetch was
abandoned (fetchWithRetry returned null), or a page was obtained on which
the news-article grid was or was not found, with the parsed articles. -/
inductive FetchOutcome where
  | abandoned
  | page (sectionFound : Bool) (articles : List Article)
deriving DecidableEq

/-- Errors that escape a run of the arc-raiders scraper: the structural
error thrown when the news section is missing, and the RangeError thrown
by toISOString when saveState receives an invalid date. -/
inductive RunError where
  | newsSectionNotFound
  | invalidTimeValue
deriving Repr, DecidableEq

/-- getLatestNewsArticles of the arc-raiders scraper, given the fetch
outcome: an abandoned fetch is non-fatal and yields the empty list, a page
without the news section throws, otherwise the parsed articles are
returned. -/
def getLatestNewsArticles : FetchOutcome → Except RunError (List Article)
  | .abandoned => .ok []
  | .page false _ => .error .newsSectionNotFound
  | .page true articles => .ok articles

/-- The inclusion test of the loop in getUnpostedArticles: an article is
kept when it is strictly newer than lastPublished, or carries the same
timestamp with a url not yet in postedUrls. -/
def includeArticle (st : DeltaState) (a : Article) : Bool :=
  if st.lastPublished < a.published then true
  else if a.published = st.lastPublished ∧ a.url ∉ st.postedUrls then true
  else false

/-- The sort order of the final sort call: ascending by published value. -/
def publishedOrder (a b : Article) : Prop :=
  a.published ≤ b.published

instance : DecidableRel publishedOrder := fun a b =>
  inferInstanceAs (Decidable (a.published ≤ b.published))

instance : IsTotal Article publishedOrder :=
  ⟨fun a b => Nat.le_total a.published b.published⟩

instance : IsTrans Article publishedOrder :=
  ⟨fun _ _ _ => Nat.le_trans⟩

/-- The branch of getUnpostedArticles taken when a prior state exists:
filter the scraped articles through the inclusion test and return them
stably sorted ascending by published value. -/
def getUnpostedArticles (st : DeltaState) (articles : List Article) : List Article :=
  List.insertionSort publishedOrder (articles.filter (includeArticle st))

/-- Math.max over the published values of a list of articles, as used to
compute the newest date; none models the minus-infinity result on the
empty list, which new Date turns into an invalid date. -/
def maxPublished : List Article → Option Nat
  | [] => none
  | a :: rest =>
    match maxPublished rest with
    | none => some a.published
    | some m => some (max a.published m)

/-- Urls of the articles carrying exactly the given published value, in
source order. -/
def urlsAtTimestamp (articles : List Article) (t : Nat) : List String :=
  (articles.filter (fun a => a.published = t)).map (fun a => a.url)

/-- Cold-start branch of getUnpostedArticles: compute the newest date of
the scraped articles and save it together with an empty posted_urls list.
With no articles Math.max yields an invalid date and toISOString inside
saveState throws a RangeError before anything is written. -/
def coldStart (articles : List Article) : Except RunError DeltaState :=
  match maxPublished articles with
  | none => .error .invalidTimeValue
  | some newest => .ok ⟨newest, []⟩

/-- One run of the arc-raiders delta logic together with the write-back of
the main block.  With no prior state the cold-start branch saves a baseline
and returns no articles.  Otherwise the unposted articles are computed and
each is attempted in order; when the set is non-empty the state is replaced
by its maximum published value together with the urls of its articles at
that maximum.  The second component of the result is the state written by
the run, none when the state file is left untouched. -/
def runArc (state : Option DeltaState) (articles : List Article) :
    Except RunError (List Article × Option DeltaState) :=
  match state with
  | none =>
    match coldStart articles with
    | .error e => .error e
    | .ok st0 => .ok ([], some st0)
  | some st =>
    let newArticles := getUnpostedArticles st articles
    match maxPublished newArticles with
    | none => .ok (newArticles, none)
    | some newest => .ok (newArticles, some ⟨newest, urlsAtTimestamp newArticles newest⟩)

/-- A full arc-raiders run from the outcome of the news fetch. -/
def runArcFromFetch (state : Option DeltaState) (fetch : FetchOutcome) :
    Except RunError (List Article × Option DeltaState) :=
  match getLatestNewsArticles fetch with
  | .error e => .error e
  | .ok articles => runArc state articles

/-- Cool-down seconds derived from the Retry-After header by
Number(header) with fallback 5: the fallback applies when the header is
absent, not numeric, or zero, since all of these are falsy. -/
def retryAfterSeconds (header : Option Nat) : Nat :=
  match header with
  | none => 5
  | some n => if n = 0 then 5 else n

/-- Final outcome of posting one article. -/
inductive PostOutcome where
  | success
  | failure (status : Nat)
deriving Repr, DecidableEq

/-- Trace of one postToDiscord call: how many webhook requests were made,
the seconds waited between them, and the final outcome. -/
structure PostTrace where
  attempts : Nat
  waits : List Nat
  outcome : PostOutcome
deriving Repr, DecidableEq

/-- postToDiscord of the arc-raiders scraper: a 429 status with retries
left waits the Retry-After cool-down and recurses with one retry fewer;
otherwise any non-2xx status throws, a terminal failure for the article,
and a 2xx status succeeds.  resp gives the response to the k-th webhook
request; the last argument is the remaining retry budget. -/
def postToDiscord (resp : Nat → HttpResponse) (k : Nat) : Nat → PostTrace
  | 0 =>
    let r := resp k
    if isOk r.status then ⟨1, [], .success⟩ else ⟨1, [], .failure r.status⟩
  | budget + 1 =>
    let r := resp k
    if r.status = 429 then
      let rest := postToDiscord resp (k + 1) budget
      ⟨rest.attempts + 1, retryAfterSeconds r.retryAfterValue :: rest.waits, rest.outcome⟩
    else if isOk r.status then ⟨1, [], .success⟩
    else ⟨1, [], .failure r.status⟩

/-- Errors thrown by the nightreign postToDiscord: the ReferenceError
raised by reading an undeclared variable, and the explicit webhook-failed
error on a non-2xx status. -/
inductive NightreignPostError where
  | referenceError
  | webhookFailed (status : Nat)
deriving Repr, DecidableEq

/-- postToDiscord of the nightreign scraper: on a 429 response it
evaluates retries > 0, but the function takes no retries parameter and no
such binding is in scope, so the read throws a ReferenceError and no retry
ever happens; otherwise a non-2xx status throws the webhook failure and a
2xx status succeeds. -/
def nightreignPostToDiscord (r : HttpResponse) : Except NightreignPostError Unit :=
  if r.status = 429 then .error .referenceError
  else if isOk r.status then .ok ()
  else .error (.webhookFailed r.status)

/-- Errors thrown by the fetch step of the nightreign
getLatestNewsArticles: a rejected fetch propagates, and a non-2xx status
throws HTTP n.  Both abort the run. -/
inductive NightreignFetchError where
  | networkThrow
  | httpStatus (status : Nat)
deriving Repr, DecidableEq

/-- The fetch step of the nightreign getLatestNewsArticles: a single fetch
call with no retry wrapper; a network error propagates out of the function
and a non-2xx status throws, so either fetch failure is fatal for the
run. -/
def nightreignFetchNews : AttemptResult → Except NightreignFetchError HttpResponse
  | .netError => .error .networkThrow
  | .response r => if isOk r.status then .ok r else .error (.httpStatus r.status)

/-- States of the arc-raiders scraper reachable by a sequence of runs,
paired with the accumulated list of articles attempted (posted) over those
runs: a cold start saves the maximum observed timestamp with no urls and
posts nothing, and every later run whose unposted set is non-empty appends
that set to the attempted articles and writes back the state computed by
the main block. -/
inductive Reachable : DeltaState → List Article → Prop where
  | cold (articles : List Article) (newest : Nat)
      (h : maxPublished articles = some newest) :
      Reachable ⟨newest, []⟩ []
  | step (st : DeltaState) (posted articles : List Article) (newest : Nat)
      (hr : Reachable st posted)
      (h : maxPublished (getUnpostedArticles st articles) = some newest) :
      Reachable ⟨newest, urlsAtTimestamp (getUnpostedArticles st articles) newest⟩
        (posted ++ getUnpostedArticles st articles)

/-- Epoch milliseconds of 2026-01-05T00:00:00Z, the value the date-only
arc-raiders timestamps parse to. -/
def d0105 : Nat := 1767571200000

/-- Epoch milliseconds of 2026-01-06T00:00:00Z. -/
def d0106 : Nat := 1767657600000

/-- Epoch milliseconds of 2026-01-10T00:00:00Z. -/
def d0110 : Nat := 1768003200000

/-- The inclusion test succeeds exactly on the articles the spec describes:
strictly newer than lastPublished, or at the same timestamp with an unseen
url. -/
theorem includeArticle_iff {st : DeltaState} {a : Article} :
    includeArticle st a = true ↔
      st.lastPublished < a.published ∨
        (a.published = st.lastPublished ∧ a.url ∉ st.postedUrls) := by
  unfold includeArticle
  split_ifs with h1 h2
  · simp [h1]
  · simp [h1, h2]
  · simp [h1, h2]

/-- Membership in the unposted output is membership in the scraped list
together with the inclusion test. -/
theorem mem_getUnpostedArticles {st : DeltaState} {articles : List Article}
    {a : Article} :
    a ∈ getUnpostedArticles st articles ↔
      a ∈ articles ∧ includeArticle st a = true := by
  unfold getUnpostedArticles
  rw [List.mem_insertionSort, List.mem_filter]

/-- Unfolding equation of maxPublished on a non-empty list. -/
theorem maxPublished_cons (a : Article) (l : List Article) :
    maxPublished (a :: l) =
      match maxPublished l with
      | none => some a.published
      | some m => some (max a.published m) := rfl

/-- Math.max over a non-empty article list yields the maximum published
value: an upper bound that is attained. -/
theorem maxPublished_spec : ∀ (l : List Article), l ≠ [] →
    ∃ m, maxPublished l = some m ∧ (∀ a ∈ l, a.published ≤ m) ∧
      ∃ a ∈ l, a.published = m
  | [], h => absurd rfl h
  | [a], _ => ⟨a.published, rfl, by simp, ⟨a, by simp⟩⟩
  | a :: b :: rest, _ => by
    obtain ⟨m, hm, hub, c, hc, hcm⟩ := maxPublished_spec (b :: rest) (by simp)
    refine ⟨max a.published m, ?_, ?_, ?_⟩
    · rw [maxPublished_cons, hm]
    · intro x hx
      rcases List.mem_cons.mp hx with h | h
      · subst h; exact le_max_left _ _
      · exact Nat.le_trans (hub x h) (le_max_right _ _)
    · rcases Nat.le_total a.published m with h | h
      · exact ⟨c, List.mem_cons_of_mem _ hc, by rw [hcm, max_eq_right h]⟩
      · exact ⟨a, List.mem_cons_self _ _, by rw [max_eq_left h]⟩

/-- Stability of the sort: the articles carrying any fixed published value
appear in the sorted output exactly as they appear in the input. -/
theorem insertionSort_filter_eq (l : List Article) (t : Nat) :
    (List.insertionSort publishedOrder l).filter (fun a => decide (a.published = t)) =
      l.filter (fun a => decide (a.published = t)) := by
  have hmem : ∀ a ∈ l.filter (fun a => decide (a.published = t)),
      (fun a : Article => decide (a.published = t)) a = true :=
    fun a ha => (List.mem_filter.mp ha).2
  have hpair : (l.filter (fun a => decide (a.published = t))).Pairwise publishedOrder := by
    apply List.pairwise_of_forall_mem_list
    intro a ha b hb
    have ha2 := (List.mem_filter.mp ha).2
    have hb2 := (List.mem_filter.mp hb).2
    simp only [decide_eq_true_eq] at ha2 hb2
    unfold publishedOrder
    omega
  have hsub : List.Sublist (l.filter (fun a => decide (a.published = t)))
      (List.insertionSort publishedOrder l) :=
    List.sublist_insertionSort hpair (List.filter_sublist l)
  have heq : (l.filter (fun a => decide (a.published = t))).filter
      (fun a => decide (a.published = t)) = l.filter (fun a => decide (a.published = t)) :=
    List.filter_eq_self.mpr hmem
  have hsub2 : List.Sublist (l.filter (fun a => decide (a.published = t)))
      ((List.insertionSort publishedOrder l).filter (fun a => decide (a.published = t))) :=
    heq ▸ hsub.filter (fun a => decide (a.published = t))
  have hlen : ((List.insertionSort publishedOrder l).filter
        (fun a => decide (a.published = t))).length =
      (l.filter (fun a => decide (a.published = t))).length :=
    ((List.perm_insertionSort publishedOrder l).filter _).length_eq
  exact (hsub2.eq_of_length hlen.symm).symm

/-- A fetch whose every attempt fails returns the null sentinel after the
allowed attempts, never raising. -/
theorem fetchWithRetry_exhausts (resp : Nat → AttemptResult)
    (hfail : ∀ n, attemptFails (resp n) = true) :
    ∀ (fuel attempt : Nat), fetchWithRetry resp attempt fuel = none := by
  intro fuel
  induction fuel with
  | zero => intro attempt; rfl
  | succ fuel ih =>
    intro attempt
    rcases hr : resp attempt with _ | r
    · simp only [fetchWithRetry, hr]
      exact ih (attempt + 1)
    · have hf := hfail attempt
      rw [hr] at hf
      simp only [attemptFails, Bool.not_eq_true'] at hf
      simp only [fetchWithRetry, hr, hf]
      simp only [Bool.false_eq_true, if_false]
      exact ih (attempt + 1)

/-- C1: the claim that after any run persisting new state a subsequent
unposted call on the same article list is empty fails on the code.  With
state lastPublished 01-10 and postedUrls containing only url a, a page
holding articles a and b both dated 01-10 makes the run attempt b and
write back postedUrls as just b, dropping a; the very next run over the
unchanged page then returns article a again, re-posting it. -/
theorem c1_monotonicity_violated :
    runArc (some ⟨d0110, ["https://x/a"]⟩)
        [⟨"A", "https://x/a", d0110⟩, ⟨"B", "https://x/b", d0110⟩] =
      .ok ([⟨"B", "https://x/b", d0110⟩], some ⟨d0110, ["https://x/b"]⟩) ∧
    getUnpostedArticles ⟨d0110, ["https://x/b"]⟩
        [⟨"A", "https://x/a", d0110⟩, ⟨"B", "https://x/b", d0110⟩] =
      [⟨"A", "https://x/a", d0110⟩] :=
  ⟨rfl, by decide⟩

/-- C2: with a prior state, an article of the scraped list appears in the
unposted output exactly when it is strictly newer than lastPublished or
shares that timestamp with a url outside postedUrls; in particular, of two
articles at the state timestamp where exactly the first url is already in
postedUrls, the output is exactly the second article. -/
theorem c2_delta_inclusion_rule (st : DeltaState) (articles : List Article) :
    (∀ a ∈ articles,
      (a ∈ getUnpostedArticles st articles ↔
        st.lastPublished < a.published ∨
          (a.published = st.lastPublished ∧ a.url ∉ st.postedUrls))) ∧
    (∀ a₁ a₂ : Article, a₁.published = st.lastPublished →
      a₂.published = st.lastPublished → a₁.url ∈ st.postedUrls →
      a₂.url ∉ st.postedUrls → getUnpostedArticles st [a₁, a₂] = [a₂]) := by
  constructor
  · intro a ha
    rw [mem_getUnpostedArticles, includeArticle_iff]
    simp [ha]
  · intro a₁ a₂ h₁ h₂ h₃ h₄
    have hlt₁ : ¬ st.lastPublished < a₁.published := by omega
    have hlt₂ : ¬ st.lastPublished < a₂.published := by omega
    have e₁ : includeArticle st a₁ = false := by
      unfold includeArticle
      rw [if_neg hlt₁, if_neg (fun hc => hc.2 h₃)]
    have e₂ : includeArticle st a₂ = true := by
      unfold includeArticle
      rw [if_neg hlt₂, if_pos ⟨h₂, h₄⟩]
    simp [getUnpostedArticles, e₁, e₂]

/-- Witness for C2: the tie-break scenario of the spec at the concrete
state lastPublished 01-10 with url a posted, over articles a and b of that
same date, returns exactly article b. -/
theorem c2_witness :
    getUnpostedArticles ⟨d0110, ["https://x/a"]⟩
        [⟨"A", "https://x/a", d0110⟩, ⟨"B", "https://x/b", d0110⟩] =
      [⟨"B", "https://x/b", d0110⟩] :=
  (c2_delta_inclusion_rule ⟨d0110, ["https://x/a"]⟩
      [⟨"A", "https://x/a", d0110⟩, ⟨"B", "https://x/b", d0110⟩]).2
    ⟨"A", "https://x/a", d0110⟩ ⟨"B", "https://x/b", d0110⟩
    rfl rfl (by decide) (by decide)

/-- C3: a cold start over any non-empty article list posts nothing and
persists a state whose lastPublished is the maximum observed published
value (with an empty posted_urls list). -/
theorem c3_cold_start_baseline (articles : List Article) (h : articles ≠ []) :
    ∃ st : DeltaState, runArc none articles = .ok ([], some st) ∧
      st.postedUrls = [] ∧
      (∀ a ∈ articles, a.published ≤ st.lastPublished) ∧
      (∃ a ∈ articles, a.published = st.lastPublished) := by
  obtain ⟨m, hm, hub, hex⟩ := maxPublished_spec articles h
  exact ⟨⟨m, []⟩, by simp [runArc, coldStart, hm], rfl, hub, hex⟩

/-- Witness for C3: a cold start over one article dated 01-05 persists
that date and posts nothing. -/
theorem c3_witness :
    ([(⟨"A", "https://x/a", d0105⟩ : Article)] ≠ []) ∧
    (∃ st : DeltaState, runArc none [⟨"A", "https://x/a", d0105⟩] = .ok ([], some st) ∧
      st.postedUrls = [] ∧
      (∀ a ∈ [(⟨"A", "https://x/a", d0105⟩ : Article)], a.published ≤ st.lastPublished) ∧
      (∃ a ∈ [(⟨"A", "https://x/a", d0105⟩ : Article)], a.published = st.lastPublished)) :=
  ⟨by decide, c3_cold_start_baseline [⟨"A", "https://x/a", d0105⟩] (by decide)⟩

/-- C4: the spec scenario expects a cold start over articles dated 01-05,
01-06, 01-06 to persist both 01-06 urls; the code instead saves an empty
posted_urls list, so the next run over the unchanged page returns both
01-06 siblings and posts them even though they predate the baseline. -/
theorem c4_cold_start_siblings :
    runArc none [⟨"A", "https://x/a", d0105⟩, ⟨"B", "https://x/b", d0106⟩,
        ⟨"C", "https://x/c", d0106⟩] = .ok ([], some ⟨d0106, []⟩) ∧
    getUnpostedArticles ⟨d0106, []⟩ [⟨"A", "https://x/a", d0105⟩,
        ⟨"B", "https://x/b", d0106⟩, ⟨"C", "https://x/c", d0106⟩] =
      [⟨"B", "https://x/b", d0106⟩, ⟨"C", "https://x/c", d0106⟩] :=
  ⟨rfl, by decide⟩

/-- C5: the invariant that postedUrls holds exactly the urls of posted
articles at lastPublished is not preserved by the write-back.  A state
reachable in three runs (cold start over article X dated 10, a run posting
X, then a run posting its sibling Y of the same date) records only url y,
although posted article X also carries timestamp 10: the write-back
replaces postedUrls instead of accumulating same-timestamp urls. -/
theorem c5_invariant_violated :
    Reachable ⟨10, ["https://x/y"]⟩
      [⟨"X", "https://x/x", 10⟩, ⟨"Y", "https://x/y", 10⟩] ∧
    (⟨"X", "https://x/x", 10⟩ : Article) ∈
      [(⟨"X", "https://x/x", 10⟩ : Article), ⟨"Y", "https://x/y", 10⟩] ∧
    (⟨"X", "https://x/x", 10⟩ : Article).published = (10 : Nat) ∧
    "https://x/x" ∉ (⟨10, ["https://x/y"]⟩ : DeltaState).postedUrls := by
  refine ⟨?_, by decide, rfl, by decide⟩
  have h0 : Reachable ⟨10, []⟩ [] :=
    Reachable.cold [⟨"X", "https://x/x", 10⟩] 10 (by decide)
  have h1 := Reachable.step ⟨10, []⟩ [] [⟨"X", "https://x/x", 10⟩] 10 h0 (by decide)
  have e1 : urlsAtTimestamp (getUnpostedArticles ⟨10, []⟩ [⟨"X", "https://x/x", 10⟩]) 10 =
      ["https://x/x"] := by decide
  have e2 : ([] : List Article) ++ getUnpostedArticles ⟨10, []⟩ [⟨"X", "https://x/x", 10⟩] =
      [⟨"X", "https://x/x", 10⟩] := by decide
  rw [e1, e2] at h1
  have h2 := Reachable.step ⟨10, ["https://x/x"]⟩ [⟨"X", "https://x/x", 10⟩]
    [⟨"X", "https://x/x", 10⟩, ⟨"Y", "https://x/y", 10⟩] 10 h1 (by decide)
  have e3 : urlsAtTimestamp (getUnpostedArticles ⟨10, ["https://x/x"]⟩
      [⟨"X", "https://x/x", 10⟩, ⟨"Y", "https://x/y", 10⟩]) 10 = ["https://x/y"] := by decide
  have e4 : [(⟨"X", "https://x/x", 10⟩ : Article)] ++ getUnpostedArticles ⟨10, ["https://x/x"]⟩
      [⟨"X", "https://x/x", 10⟩, ⟨"Y", "https://x/y", 10⟩] =
      [⟨"X", "https://x/x", 10⟩, ⟨"Y", "https://x/y", 10⟩] := by decide
  rw [e3, e4] at h2
  exact h2

/-- C6: the arc-raiders notifier handles a 429 by waiting the Retry-After
cool-down (here 7 seconds, and the default 5 when the header is absent)
and retrying up to its bounded budget of 3 retries, and treats any other
non-2xx status as a final failure with no retry; but the nightreign
notifier throws a ReferenceError on its very first 429, because it reads a
retries variable that is never declared, so that article is never
retried. -/
theorem c6_notifier_rate_limit :
    nightreignPostToDiscord ⟨429, some 7⟩ = .error .referenceError ∧
    postToDiscord (fun _ => ⟨429, some 7⟩) 1 3 = ⟨4, [7, 7, 7], .failure 429⟩ ∧
    postToDiscord (fun _ => ⟨429, none⟩) 1 3 = ⟨4, [5, 5, 5], .failure 429⟩ ∧
    postToDiscord (fun _ => ⟨500, none⟩) 1 3 = ⟨1, [], .failure 500⟩ ∧
    postToDiscord (fun k => if k = 1 then ⟨429, some 2⟩ else ⟨204, none⟩) 1 3 =
      ⟨2, [2], .success⟩ :=
  ⟨rfl, rfl, rfl, rfl, rfl⟩

/-- C7 counterexample: the claim that a fetch failure is never fatal fails
on the code.  With no prior state, an abandoned arc-raiders fetch leads
into the cold-start branch over zero articles, which throws on the invalid
date; and the nightreign scraper throws on any fetch failure, having no
retry wrapper at all. -/
theorem c7_counterexample :
    runArcFromFetch none .abandoned = .error .invalidTimeValue ∧
    nightreignFetchNews (.response ⟨503, none⟩) = .error (.httpStatus 503) ∧
    nightreignFetchNews .netError = .error .networkThrow :=
  ⟨rfl, rfl, rfl⟩

/-- C7 as amended: in the arc-raiders scraper, a fetch that fails on every
attempt returns the null sentinel after its allowed attempts without
raising, and a run holding an existing persisted state then proceeds with
zero articles, posts nothing, raises no error and leaves the state
untouched. -/
theorem c7_fetch_failure_nonfatal (st : DeltaState) (resp : Nat → AttemptResult)
    (maxAttempts : Nat) (hfail : ∀ n, attemptFails (resp n) = true) :
    fetchWithRetry resp 1 maxAttempts = none ∧
    runArcFromFetch (some st) .abandoned = .ok ([], none) :=
  ⟨fetchWithRetry_exhausts resp hfail maxAttempts 1, rfl⟩

/-- Witness for C7: a network error on all three attempts yields the null
sentinel, and the run with state lastPublished 01-10 ends cleanly with
nothing posted and nothing written. -/
theorem c7_witness :
    fetchWithRetry (fun _ => AttemptResult.netError) 1 3 = none ∧
    runArcFromFetch (some ⟨d0110, []⟩) .abandoned = .ok ([], none) :=
  c7_fetch_failure_nonfatal ⟨d0110, []⟩ (fun _ => .netError) 3 (fun _ => rfl)

/-- C8: for every state and article list, the unposted output is sorted
ascending by published value, is a permutation of the included subset, and
is stable: the articles at any fixed published value appear in the output
exactly as in the filtered source list, which itself preserves source
order. -/
theorem c8_output_ordering (st : DeltaState) (articles : List Article) (t : Nat) :
    (getUnpostedArticles st articles).Sorted publishedOrder ∧
    List.Perm (getUnpostedArticles st articles) (articles.filter (includeArticle st)) ∧
    (getUnpostedArticles st articles).filter (fun a => decide (a.published = t)) =
      (articles.filter (includeArticle st)).filter (fun a => decide (a.published = t)) ∧
    List.Sublist (articles.filter (includeArticle st)) articles :=
  ⟨List.sorted_insertionSort publishedOrder _,
    List.perm_insertionSort publishedOrder _,
    insertionSort_filter_eq _ t,
    List.filter_sublist articles⟩

/-- C9: loadState is total over every possible state-file content and
returns absent on a missing file, on unparseable JSON, on an absent or
unparseable last_published, and treats a posted_urls that is absent or not
an array as the empty list. -/
theorem c9_load_state_totality (dateParse : String → Option Nat) :
    loadState dateParse .missing = none ∧
    loadState dateParse .malformed = none ∧
    (∀ record : RawRecord, record.lastPublishedField = none →
      loadState dateParse (.parsed record) = none) ∧
    (∀ (record : RawRecord) (s : String), record.lastPublishedField = some s →
      dateParse s = none → loadState dateParse (.parsed record) = none) ∧
    (∀ (record : RawRecord) (s : String) (t : Nat), record.lastPublishedField = some s →
      dateParse s = some t → record.postedUrlsIsArray = false →
      loadState dateParse (.parsed record) = some ⟨t, []⟩) ∧
    (∀ (record : RawRecord) (s : String) (t : Nat), record.lastPublishedField = some s →
      dateParse s = some t → record.postedUrlsIsArray = true →
      loadState dateParse (.parsed record) = some ⟨t, record.postedUrlsField⟩) := by
  refine ⟨rfl, rfl, ?_, ?_, ?_, ?_⟩
  · intro record h
    simp [loadState, h]
  · intro record s h1 h2
    simp [loadState, h1, h2]
  · intro record s t h1 h2 h3
    simp [loadState, h1, h2, h3]
  · intro record s t h1 h2 h3
    simp [loadState, h1, h2, h3]

/-- Witness for C9: a missing file loads as absent, and a record whose
posted_urls is not an array loads with an empty url list. -/
theorem c9_witness :
    loadState (fun _ => some 7) .missing = none ∧
    loadState (fun _ => some 7) (.parsed ⟨some "2026-01-06", false, ["u"]⟩) =
      some ⟨7, []⟩ :=
  ⟨(c9_load_state_totality (fun _ => some 7)).1,
    (c9_load_state_totality (fun _ => some 7)).2.2.2.2.1
      ⟨some "2026-01-06", false, ["u"]⟩ "2026-01-06" 7 rfl rfl rfl⟩

/-- C10: with no prior state and an empty article list, as after an
abandoned fetch, the cold-start branch takes the maximum of an empty list,
producing an invalid date, and the state save throws a RangeError instead
of returning the empty sequence with the state untouched. -/
theorem c10_cold_start_empty_crash :
    runArc none [] = .error .invalidTimeValue ∧
    runArcFromFetch none .abandoned = .error .invalidTimeValue :=
  ⟨rfl, rfl⟩

end GameNewsBot
